import Mathlib

/-!
Verification of the QRScan URL risk-classification core.

Shallow embedding of `src/qrscan/url_checker.py`, the classification branch of
`QRCodeAgent.scan_pdf` (`src/qrscan/agent.py`), and
`src/qrscan/result_writer.py:save_results`.

Conventions of the embedding:
* Python strings are Lean `String`s; all modelled inputs are ASCII
  (`str.lower`, `\d` in regexes and the NFKC netloc check only diverge from
  the model on non-ASCII input, which no claim exercises).
* Python's `urllib.parse.urlparse(url).netloc` is modelled by
  `urlparse_netloc`, following CPython's `urlsplit`: WHATWG stripping of
  leading C0-control/space characters, removal of tab/CR/LF, scheme
  splitting at the first `:` when the prefix is a valid scheme, netloc
  extraction after `//` up to the first of `/?#`, and a `ValueError`
  (modelled as `none`) on a mismatched `[`/`]` bracket pair.
* The network is a parameter `net : HttpRequest → HttpOutcome`: the code
  builds the request value and the world answers with an outcome (an
  exception, or a status code plus a parse result for the body).  A Python
  exception escaping a modelled expression is an explicit error value.
-/

namespace QRScan

/-! ## String helpers (Python `in`, `str.lower`, `len`) -/

/-- Python's substring containment `needle in hay` on a list of characters:
true iff `needle` occurs contiguously in `hay`. -/
def containsSubList (needle : List Char) : List Char → Bool
  | [] => needle.isEmpty
  | c :: rest => needle.isPrefixOf (c :: rest) || containsSubList needle rest

/-- Python's `needle in hay` on strings. -/
def substrOf (needle hay : String) : Bool :=
  containsSubList needle.toList hay.toList

/-- ASCII lowercase of one character (Python `str.lower`, restricted to the
ASCII range the modelled inputs live in). -/
def charLower (c : Char) : Char :=
  if 0x41 ≤ c.toNat ∧ c.toNat ≤ 0x5a then Char.ofNat (c.toNat + 32) else c

/-- Python `s.lower()` for ASCII strings. -/
def pyLower (s : String) : String :=
  String.mk (s.toList.map charLower)

/-! ## Model of `urllib.parse.urlparse(url).netloc` -/

/-- CPython `urllib.parse.scheme_chars`: characters allowed in a URL scheme. -/
def scheme_chars : List Char :=
  "abcdefghijklmnopqrstuvwxyzABCDEFGHIJKLMNOPQRSTUVWXYZ0123456789+-.".toList

/-- ASCII alphabetic test, as in CPython's
`url[0].isascii() and url[0].isalpha()` guard on the scheme. -/
def isAsciiAlpha (c : Char) : Bool :=
  (0x61 ≤ c.toNat && c.toNat ≤ 0x7a) || (0x41 ≤ c.toNat && c.toNat ≤ 0x5a)

/-- CPython `urlsplit` step 1: `url.lstrip(_WHATWG_C0_CONTROL_OR_SPACE)` —
drop leading characters with code point ≤ 0x20. -/
def wsLstrip (cs : List Char) : List Char :=
  cs.dropWhile (fun c => c.toNat ≤ 0x20)

/-- CPython `urlsplit` step 2: remove every tab, carriage return and line
feed from the URL (`_UNSAFE_URL_BYTES_TO_REMOVE`). -/
def scrubUrlChars (cs : List Char) : List Char :=
  cs.filter (fun c => c ≠ '\t' && c ≠ '\r' && c ≠ '\n')

/-- CPython `urlsplit` scheme handling: if the first `:` is at index `i > 0`,
the first character is an ASCII letter, and every character before the `:`
is a scheme character, the scheme (and the `:`) is removed. -/
def dropScheme (cs : List Char) : List Char :=
  match cs.findIdx? (· == ':') with
  | none => cs
  | some i =>
    if 0 < i
        && (match cs.head? with | some c => isAsciiAlpha c | none => false)
        && (cs.take i).all (fun c => scheme_chars.contains c)
    then cs.drop (i + 1)
    else cs

/-- CPython `_splitnetloc`: the netloc runs from after `//` to the first of
`/`, `?`, `#`. -/
def takeNetloc (cs : List Char) : List Char :=
  cs.takeWhile (fun c => c ≠ '/' && c ≠ '?' && c ≠ '#')

/-- Model of `urllib.parse.urlparse(url).netloc` for ASCII input.
`none` models `urlparse` raising `ValueError` (mismatched `[`/`]` in the
netloc); `some s` is the netloc, which is empty when the URL has no `//`
authority marker.  The 3.11+ validation of the bracketed host's contents and
the non-ASCII NFKC check are outside the model (no claim depends on them). -/
def urlparse_netloc (url : String) : Option String :=
  let cs := scrubUrlChars (wsLstrip url.toList)
  let cs := dropScheme cs
  match cs with
  | '/' :: '/' :: rest =>
    let netloc := takeNetloc rest
    if netloc.contains '[' != netloc.contains ']' then none
    else some (String.mk netloc)
  | _ => some ""

/-! ## `url_checker.is_url_suspicious_heuristic` -/

/-- The fixed TLD denylist of `is_url_suspicious_heuristic`. -/
def suspicious_tlds : List String := [".ru", ".cn", ".tk", ".ml", ".ga", ".cf", ".gq"]

/-- The fixed risky-keyword list of `is_url_suspicious_heuristic`. -/
def risky_keywords : List String := ["login", "signin", "password", "bank", "paypal", "bitcoin"]

/-- Python `s.split(sep)` for a one-character separator, on character
lists. -/
def splitOnChar (sep : Char) : List Char → List (List Char)
  | [] => [[]]
  | c :: rest =>
    let r := splitOnChar sep rest
    if c == sep then [] :: r
    else
      match r with
      | [] => [[c]]
      | g :: gs => (c :: g) :: gs

/-- The regex `^\d+\.\d+\.\d+\.\d+$` applied to the (lowercased) netloc:
exactly four dot-separated non-empty all-digit groups and nothing else.
(`urlsplit` removes tab/CR/LF, so the `$`-before-final-newline quirk of
Python's `re` cannot fire on a netloc.) -/
def isIpv4LiteralPattern (domain : String) : Bool :=
  let groups := splitOnChar '.' domain.toList
  groups.length == 4 && groups.all (fun g => !g.isEmpty && g.all Char.isDigit)

/-- `url_checker.is_url_suspicious_heuristic`.  The Python function is a
chain of early `return True`s, i.e. a disjunction of its five conditions;
a `ValueError` from `urlparse` is caught and mapped to `True`. -/
def is_url_suspicious_heuristic (url : String) : Bool :=
  match urlparse_netloc url with
  | none => true
  | some netloc =>
    let domain := pyLower netloc
    (suspicious_tlds.any fun tld => substrOf tld domain)
      || isIpv4LiteralPattern domain
      || (risky_keywords.any fun kw => substrOf kw (pyLower url))
      || (substrOf "%" url && url.length > 100)
      || (url.length > 200)

/-! ## Model of `url_checker.check_url_virustotal` -/

/-- A parsed JSON value as Python's `json` module produces it.  An `obj`
models an already-parsed Python dict, so its keys are unique. -/
inductive Json where
  | null : Json
  | bool (b : Bool) : Json
  | num (n : Int) : Json
  | str (s : String) : Json
  | arr (xs : List Json) : Json
  | obj (kvs : List (String × Json)) : Json

/-- The outbound HTTP request `check_url_virustotal` constructs:
`requests.post(api_url, headers={"x-apikey": api_key}, data={"url": url},
timeout=10)`. -/
structure HttpRequest where
  api_url : String
  x_apikey : String
  data_url : String
  timeout : Nat
deriving DecidableEq

/-- What the world answers to an HTTP request: `exn` models `requests.post`
raising (network error, timeout); `resp status body` is a response with the
given status code, whose `.json()` either raises (`Except.error`, a
malformed body) or yields a parsed value. -/
inductive HttpOutcome where
  | exn : HttpOutcome
  | resp (status : Nat) (body : Except Unit Json) : HttpOutcome

/-- Python `d.get(k, default)`: returns the value, or the default when the
key is absent; raises `AttributeError` (`Except.error`) when `d` is not a
dict. -/
def jsonDictGet (j : Json) (k : String) (dflt : Json) : Except Unit Json :=
  match j with
  | .obj kvs => .ok ((kvs.lookup k).getD dflt)
  | _ => .error ()

/-- Python `malicious_count > 0` where `malicious_count` came from the
`.get` chain: an int compares normally, a bool is an int (`True > 0` is
`True`), and any other type raises `TypeError` (`Except.error`). -/
def pyGtZero : Json → Except Unit Bool
  | .num n => .ok (decide (n > 0))
  | .bool b => .ok b
  | _ => .error ()

/-- The body-interpretation chain of `check_url_virustotal`:
`data.get("data", {}).get("attributes", {}).get("last_analysis_stats", {})
.get("malicious", 0) > 0`, with each step's possible `AttributeError` /
`TypeError` surfaced as `Except.error`. -/
def vtParseVerdict (j : Json) : Except Unit Bool := do
  let d ← jsonDictGet j "data" (.obj [])
  let a ← jsonDictGet d "attributes" (.obj [])
  let s ← jsonDictGet a "last_analysis_stats" (.obj [])
  let m ← jsonDictGet s "malicious" (.num 0)
  pyGtZero m

/-- The request value `check_url_virustotal` sends for a given candidate
URL and credential. -/
def vtRequest (url api_key : String) : HttpRequest :=
  { api_url := "https://www.virustotal.com/api/v3/urls"
    x_apikey := api_key
    data_url := url
    timeout := 10 }

/-- `check_url_virustotal`'s handling of one HTTP outcome, i.e. the body of
its `try` block with the `except Exception: return False, "Error"` handler.
`resp.raise_for_status()` raises exactly when `400 ≤ status < 600`. -/
def vtHandleOutcome (o : HttpOutcome) : Bool × String :=
  match o with
  | .exn => (false, "Error")
  | .resp status body =>
    if 400 ≤ status ∧ status < 600 then (false, "Error")
    else
      match body with
      | .error _ => (false, "Error")
      | .ok j =>
        match vtParseVerdict j with
        | .error _ => (false, "Error")
        | .ok b => (b, "VirusTotal")

/-- `url_checker.check_url_virustotal`: build the request, let the world
(`net`) answer it, and interpret the outcome. -/
def check_url_virustotal (url api_key : String)
    (net : HttpRequest → HttpOutcome) : Bool × String :=
  vtHandleOutcome (net (vtRequest url api_key))

/-! ## The classification branch of `QRCodeAgent.scan_pdf` -/

/-- Python truthiness of the `Optional[str]` credential, as tested by
`if self.virus_total_api_key:` — `None` and `""` are falsy. -/
def optTruthy : Option String → Bool
  | none => false
  | some s => !(s == "")

/-- The per-candidate classification step of `QRCodeAgent.scan_pdf`
(agent.py lines 62-66): reputation lookup when the credential is truthy,
otherwise the heuristic with source `"heuristic"`. -/
def scan_pdf_classify (content : String) (api_key : Option String)
    (net : HttpRequest → HttpOutcome) : Bool × String :=
  if optTruthy api_key then
    check_url_virustotal content (api_key.getD "") net
  else
    (is_url_suspicious_heuristic content, "heuristic")

/-! ## `result_writer.save_results` -/

/-- Python `p.rfind(c)`-style index of the last occurrence of `c` in `cs`,
if any. -/
def lastIndexOf (cs : List Char) (c : Char) : Option Nat :=
  match cs.reverse.findIdx? (· == c) with
  | none => none
  | some j => some (cs.length - 1 - j)

/-- CPython `posixpath.splitext(p)[1]`: the extension starts at the last
`.` after the last `/`, provided some non-`.` character of the basename
precedes that `.`; otherwise it is empty. -/
def splitext_ext (p : String) : String :=
  let cs := p.toList
  match lastIndexOf cs '.' with
  | none => ""
  | some d =>
    let s : Nat := match lastIndexOf cs '/' with | none => 0 | some k => k + 1
    if s ≤ d then
      if ((cs.drop s).take (d - s)).any (· ≠ '.') then String.mk (cs.drop d) else ""
    else ""

/-- The effect `save_results` performs: `json.dump` of the records to the
path, or `DataFrame.to_sql` into table `qr_scan_results` of the SQLite
database at the path. -/
inductive WriteEffect (α : Type) where
  | jsonFile (path : String) (data : List α) : WriteEffect α
  | sqliteTable (path : String) (table : String) (data : List α) : WriteEffect α
deriving DecidableEq

/-- The format-resolution step of `save_results`: when `format` is `None`
or `"json"`, a `.sqlite`/`.db` extension (lowercased) forces `"sqlite"`,
else `"json"`; any other explicit format is kept as-is. -/
def resolveFormat (output_path : String) (format : Option String) : String :=
  let ext := pyLower (splitext_ext output_path)
  match format with
  | none => if ext == ".sqlite" || ext == ".db" then "sqlite" else "json"
  | some f =>
    if f == "json" then (if ext == ".sqlite" || ext == ".db" then "sqlite" else "json")
    else f

/-- `result_writer.save_results`: resolve the format, then write JSON,
write SQLite, or raise `ValueError(f"Unsupported format: {format}")`
(modelled as `Except.error` with the message). -/
def save_results {α : Type} (data : List α) (output_path : String)
    (format : Option String) : Except String (WriteEffect α) :=
  let fmt := resolveFormat output_path format
  if fmt == "json" then .ok (.jsonFile output_path data)
  else if fmt == "sqlite" then .ok (.sqliteTable output_path "qr_scan_results" data)
  else .error ("Unsupported format: " ++ fmt)

/-! ## Derived notions used by the statements -/

/-- A reputation-service response body of the expected shape
`{data:{attributes:{last_analysis_stats:{malicious: n}}}}`. -/
def mkVtBody (n : Int) : Json :=
  .obj [("data", .obj [("attributes",
    .obj [("last_analysis_stats", .obj [("malicious", .num n)])])])]

/-- The outcomes on which the reputation lookup fails: the request raised,
the status triggers `raise_for_status` (4xx/5xx), `.json()` raised, or the
`.get`/comparison chain raised on the parsed body. -/
def vtLookupFails : HttpOutcome → Prop
  | .exn => True
  | .resp s body =>
    (400 ≤ s ∧ s < 600) ∨ body = Except.error () ∨
      ∃ j, body = Except.ok j ∧ vtParseVerdict j = Except.error ()

/-! ## Helper lemmas -/

theorem any_eq_false_of_forall {α : Type} (l : List α) (p : α → Bool)
    (h : ∀ x ∈ l, p x = false) : l.any p = false := by
  cases hx : l.any p with
  | false => rfl
  | true =>
    obtain ⟨x, hm, hp⟩ := List.any_eq_true.mp hx
    rw [h x hm] at hp
    exact absurd hp (by simp)

theorem classify_none_eq_heuristic (url : String) (net : HttpRequest → HttpOutcome) :
    scan_pdf_classify url none net = (is_url_suspicious_heuristic url, "heuristic") := rfl

theorem classify_empty_eq_heuristic (url : String) (net : HttpRequest → HttpOutcome) :
    scan_pdf_classify url (some "") net = (is_url_suspicious_heuristic url, "heuristic") := rfl

theorem heuristic_true_of_parse_none (url : String)
    (h : urlparse_netloc url = none) : is_url_suspicious_heuristic url = true := by
  simp only [is_url_suspicious_heuristic, h]

theorem heuristic_true_of_tld (url netloc tld : String)
    (hp : urlparse_netloc url = some netloc)
    (htld : tld ∈ suspicious_tlds)
    (hsub : substrOf tld (pyLower netloc) = true) :
    is_url_suspicious_heuristic url = true := by
  simp only [is_url_suspicious_heuristic, hp]
  have h1 : (suspicious_tlds.any fun t => substrOf t (pyLower netloc)) = true :=
    List.any_eq_true.mpr ⟨tld, htld, hsub⟩
  simp [h1]

theorem heuristic_true_of_ipv4 (url netloc : String)
    (hp : urlparse_netloc url = some netloc)
    (hip : isIpv4LiteralPattern (pyLower netloc) = true) :
    is_url_suspicious_heuristic url = true := by
  simp only [is_url_suspicious_heuristic, hp]
  simp [hip]

theorem vtHandleOutcome_error_of_fails (o : HttpOutcome)
    (h : vtLookupFails o) : vtHandleOutcome o = (false, "Error") := by
  cases o with
  | exn => rfl
  | resp s body =>
    rcases h with h400 | herr | ⟨j, hbody, hparse⟩
    · simp [vtHandleOutcome, h400]
    · subst herr
      by_cases hs : 400 ≤ s ∧ s < 600 <;> simp [vtHandleOutcome, hs]
    · subst hbody
      by_cases hs : 400 ≤ s ∧ s < 600 <;> simp [vtHandleOutcome, hs, hparse]

theorem vtHandleOutcome_snd (o : HttpOutcome) :
    (vtHandleOutcome o).2 = "Error" ∨ (vtHandleOutcome o).2 = "VirusTotal" := by
  cases o with
  | exn => exact Or.inl rfl
  | resp s body =>
    by_cases hs : 400 ≤ s ∧ s < 600
    · simp [vtHandleOutcome, hs]
    · cases body with
      | error e => simp [vtHandleOutcome, hs]
      | ok j =>
        cases hv : vtParseVerdict j with
        | error e => simp [vtHandleOutcome, hs, hv]
        | ok b => simp [vtHandleOutcome, hs, hv]

/-! ## Claim theorems -/

/-- C1 (counterexample): the claim says `classify("not a url at all", none)`
returns `malicious=true` by the parse-failure fail-safe; in fact `urlparse`
does not raise on this input (it parses with an empty netloc), no heuristic
rule fires, and the heuristic returns `false`. -/
theorem C1_counterexample :
    ¬ (is_url_suspicious_heuristic "not a url at all" = true) := by decide

/-- C1 (amended): `classify("not a url at all", none)` returns
`malicious=false`: URL parsing succeeds on this input with an empty host and
no heuristic rule fires.  The parse-failure fail-safe does exist: any
candidate on which `urlparse` raises is classified `malicious=true`. -/
theorem C1_amended_parse_failsafe :
    is_url_suspicious_heuristic "not a url at all" = false ∧
    urlparse_netloc "not a url at all" = some "" ∧
    ∀ url, urlparse_netloc url = none → is_url_suspicious_heuristic url = true := by
  refine ⟨by decide, by decide, ?_⟩
  intro url h
  exact heuristic_true_of_parse_none url h

/-- C1 (witness): a candidate on which `urlparse` does raise (mismatched
bracket) is classified suspicious by the fail-safe. -/
theorem C1_witness :
    urlparse_netloc "http://[bad" = none ∧
    is_url_suspicious_heuristic "http://[bad" = true :=
  ⟨by decide, C1_amended_parse_failsafe.2.2 "http://[bad" (by decide)⟩

/-- C2 (counterexample): the claim says a response body missing the expected
field yields `(malicious=false, source=Error)`; in fact a parseable dict body
missing the field takes the `.get` default `0` and yields
`(false, "VirusTotal")`.  Likewise a non-2xx status outside 4xx/5xx (here a
302) with a well-formed body is not treated as a failure. -/
theorem C2_counterexample :
    check_url_virustotal "http://example.com/x" "key"
        (fun _ => .resp 200 (.ok (Json.obj []))) = (false, "VirusTotal") ∧
    check_url_virustotal "http://example.com/x" "key"
        (fun _ => .resp 200 (.ok (Json.obj []))) ≠ (false, "Error") ∧
    check_url_virustotal "http://example.com/x" "key"
        (fun _ => .resp 302 (.ok (mkVtBody 1))) = (true, "VirusTotal") :=
  ⟨rfl, by decide, rfl⟩

/-- C2 (amended): if the lookup fails — the request raises (network error,
timeout), the status is 4xx/5xx, the body is malformed, or interpreting the
parsed body raises — then `check_url_virustotal` returns exactly
`(malicious=false, source=Error)`; it always returns a verdict whose source
is `"Error"` or `"VirusTotal"` (no exception propagates).  A parseable dict
body merely missing the expected field yields `(false, "VirusTotal")` via
the default count `0`. -/
theorem C2_amended_error_containment :
    (∀ (url key : String) (net : HttpRequest → HttpOutcome),
      (vtLookupFails (net (vtRequest url key)) →
        check_url_virustotal url key net = (false, "Error")) ∧
      ((check_url_virustotal url key net).2 = "Error" ∨
        (check_url_virustotal url key net).2 = "VirusTotal")) ∧
    check_url_virustotal "http://example.com/x" "key"
        (fun _ => .resp 200 (.ok (Json.obj []))) = (false, "VirusTotal") := by
  refine ⟨?_, rfl⟩
  intro url key net
  exact ⟨fun h => vtHandleOutcome_error_of_fails _ h, vtHandleOutcome_snd _⟩

/-- C2 (witness): a raising request (network error / timeout) yields
`(false, "Error")`. -/
theorem C2_witness :
    check_url_virustotal "http://example.com/x" "key" (fun _ => HttpOutcome.exn)
      = (false, "Error") :=
  (C2_amended_error_containment.1 "http://example.com/x" "key"
    (fun _ => HttpOutcome.exn)).1 trivial

/-- C3: every URL that parses, is under 100 characters, contains no risky
keyword (case-insensitively) and no percent character, whose host contains
no denylisted TLD substring and is not an IPv4 literal, is classified
`(malicious=false, source="heuristic")` by `classify` with no credential. -/
theorem C3_benign_urls_pass :
    ∀ (url netloc : String) (net : HttpRequest → HttpOutcome),
      urlparse_netloc url = some netloc →
      url.length < 100 →
      (∀ kw ∈ risky_keywords, substrOf kw (pyLower url) = false) →
      substrOf "%" url = false →
      (∀ tld ∈ suspicious_tlds, substrOf tld (pyLower netloc) = false) →
      isIpv4LiteralPattern (pyLower netloc) = false →
      scan_pdf_classify url none net = (false, "heuristic") := by
  intro url netloc net hp hlen hkw hpct htld hip
  rw [classify_none_eq_heuristic]
  have h1 : (suspicious_tlds.any fun t => substrOf t (pyLower netloc)) = false :=
    any_eq_false_of_forall _ _ htld
  have h2 : (risky_keywords.any fun kw => substrOf kw (pyLower url)) = false :=
    any_eq_false_of_forall _ _ hkw
  have h3 : ¬ (url.length > 100) := by omega
  have h4 : ¬ (url.length > 200) := by omega
  simp only [is_url_suspicious_heuristic, hp]
  simp [h1, h2, h3, h4, hpct, hip]

/-- C3 (witness): `http://example.com` satisfies every hypothesis and is
classified benign with source `"heuristic"`. -/
theorem C3_witness :
    scan_pdf_classify "http://example.com" none (fun _ => HttpOutcome.exn)
      = (false, "heuristic") :=
  C3_benign_urls_pass "http://example.com" "example.com" (fun _ => HttpOutcome.exn)
    (by decide) (by decide) (by decide) (by decide) (by decide) (by decide)

/-- C4: every candidate whose parsed host, lowercased, contains one of the
denylisted TLD strings `.ru .cn .tk .ml .ga .cf .gq` as a substring is
classified `(malicious=true, source="heuristic")` by `classify` with no
credential — the hypothesis is substring containment, not suffix match. -/
theorem C4_tld_substring_flags :
    ∀ (url netloc tld : String) (net : HttpRequest → HttpOutcome),
      urlparse_netloc url = some netloc →
      tld ∈ suspicious_tlds →
      substrOf tld (pyLower netloc) = true →
      scan_pdf_classify url none net = (true, "heuristic") := by
  intro url netloc tld net hp htld hsub
  rw [classify_none_eq_heuristic, heuristic_true_of_tld url netloc tld hp htld hsub]

/-- C4 (witness): `.ru` occurs in the middle of host `x.ru.evil.com` (not a
suffix — the host ends in `.com`), and the candidate is flagged. -/
theorem C4_witness :
    scan_pdf_classify "http://x.ru.evil.com/a" none (fun _ => HttpOutcome.exn)
      = (true, "heuristic") :=
  C4_tld_substring_flags "http://x.ru.evil.com/a" "x.ru.evil.com" ".ru"
    (fun _ => HttpOutcome.exn) (by decide) (by decide) (by decide)

/-- C5: every candidate whose parsed host is exactly four dot-separated
non-negative integers is classified `(malicious=true, source="heuristic")`
by `classify` with no credential; there is no range validation
(`999.999.999.999` is flagged), and in particular
`classify("http://198.51.100.7/", none)` returns `malicious=true`. -/
theorem C5_ipv4_literal_flags :
    (∀ (url netloc : String) (net : HttpRequest → HttpOutcome),
      urlparse_netloc url = some netloc →
      isIpv4LiteralPattern (pyLower netloc) = true →
      scan_pdf_classify url none net = (true, "heuristic")) ∧
    is_url_suspicious_heuristic "http://999.999.999.999/" = true ∧
    (∀ net, scan_pdf_classify "http://198.51.100.7/" none net = (true, "heuristic")) := by
  refine ⟨?_, by decide, ?_⟩
  · intro url netloc net hp hip
    rw [classify_none_eq_heuristic, heuristic_true_of_ipv4 url netloc hp hip]
  · intro net
    rw [classify_none_eq_heuristic, heuristic_true_of_ipv4 "http://198.51.100.7/"
      "198.51.100.7" (by decide) (by decide)]

/-- C5 (witness): the universally quantified part applied to the concrete
unvalidated host `999.999.999.999`. -/
theorem C5_witness :
    scan_pdf_classify "http://999.999.999.999/" none (fun _ => HttpOutcome.exn)
      = (true, "heuristic") :=
  C5_ipv4_literal_flags.1 "http://999.999.999.999/" "999.999.999.999"
    (fun _ => HttpOutcome.exn) (by decide) (by decide)

/-- C6: on a successful lookup — status 200 and a body of the expected shape
with malicious-engine count `n` — `check_url_virustotal` returns
`(n > 0, "VirusTotal")`, and the request it sent is an HTTPS POST to the
fixed endpoint with header `x-apikey` set to the credential, body field
`url` set to the candidate, and timeout 10. -/
theorem C6_success_interpretation :
    ∀ (url key : String) (n : Int) (net : HttpRequest → HttpOutcome),
      net (vtRequest url key) = .resp 200 (.ok (mkVtBody n)) →
      check_url_virustotal url key net = (decide (n > 0), "VirusTotal") ∧
      (vtRequest url key).api_url = "https://www.virustotal.com/api/v3/urls" ∧
      (vtRequest url key).x_apikey = key ∧
      (vtRequest url key).data_url = url ∧
      (vtRequest url key).timeout = 10 := by
  intro url key n net h
  refine ⟨?_, rfl, rfl, rfl, rfl⟩
  unfold check_url_virustotal
  rw [h]
  rfl

/-- C6 (witness): a body reporting 3 malicious engines yields
`(true, "VirusTotal")`. -/
theorem C6_witness :
    check_url_virustotal "http://example.com/x" "key"
      (fun _ => .resp 200 (.ok (mkVtBody 3))) = (true, "VirusTotal") :=
  (C6_success_interpretation "http://example.com/x" "key" 3
    (fun _ => .resp 200 (.ok (mkVtBody 3))) rfl).1

/-- C7: `save_results` succeeds whenever the resolved format is `json` or
`sqlite`, and for every other explicitly selected format it raises
`ValueError("Unsupported format: ...")`, propagated to the caller. -/
theorem C7_save_results_formats :
    ∀ (α : Type) (data : List α) (path : String) (format : Option String),
      ((resolveFormat path format = "json" ∨ resolveFormat path format = "sqlite") →
        ∃ e, save_results data path format = Except.ok e) ∧
      (∀ f, format = some f → f ≠ "json" → f ≠ "sqlite" →
        save_results data path format = Except.error ("Unsupported format: " ++ f)) := by
  intro α data path format
  constructor
  · intro h
    rcases h with h | h
    · exact ⟨WriteEffect.jsonFile path data, by simp [save_results, h]⟩
    · exact ⟨WriteEffect.sqliteTable path "qr_scan_results" data, by simp [save_results, h]⟩
  · intro f hf hj hs
    subst hf
    have h1 : (f == "json") = false := by simp [hj]
    have h2 : (f == "sqlite") = false := by simp [hs]
    have hr : resolveFormat path (some f) = f := by simp [resolveFormat, h1]
    simp [save_results, hr, h1, h2]

/-- C7 (witness): an explicit `json` format on a `.json` path succeeds, and
an explicit `xml` format raises the unsupported-format error. -/
theorem C7_witness :
    (∃ e, save_results [1, 2] "r.json" (some "json") = Except.ok e) ∧
    save_results ([1, 2] : List Nat) "r.txt" (some "xml")
      = Except.error ("Unsupported format: " ++ "xml") :=
  ⟨(C7_save_results_formats Nat [1, 2] "r.json" (some "json")).1 (Or.inl (by decide)),
   (C7_save_results_formats Nat [1, 2] "r.txt" (some "xml")).2 "xml" rfl
     (by decide) (by decide)⟩

/-- C8: with no credential, `classify` is a pure function of the candidate:
its verdict does not depend on the state of the world, so two calls with the
same candidate yield identical verdicts; the common value is the heuristic
verdict with source `"heuristic"`. -/
theorem C8_heuristic_determinism :
    ∀ (url : String) (net net' : HttpRequest → HttpOutcome),
      scan_pdf_classify url none net = scan_pdf_classify url none net' ∧
      scan_pdf_classify url none net = (is_url_suspicious_heuristic url, "heuristic") :=
  fun _ _ _ => ⟨rfl, rfl⟩

/-- C9: with the credential configured as the empty string, the truthiness
test `if self.virus_total_api_key:` fails, so every candidate goes down the
heuristic path with source `"heuristic"`, independent of the network — the
reputation lookup is never invoked. -/
theorem C9_empty_credential_heuristic :
    ∀ (content : String) (net net' : HttpRequest → HttpOutcome),
      scan_pdf_classify content (some "") net
        = (is_url_suspicious_heuristic content, "heuristic") ∧
      scan_pdf_classify content (some "") net = scan_pdf_classify content (some "") net' :=
  fun _ _ _ => ⟨rfl, rfl⟩

/-- C10: an explicit `json` format is overridden by a `.sqlite` or `.db`
output-path extension: the records are written in the sqlite format, not
json. -/
theorem C10_extension_overrides_json :
    ∀ (α : Type) (data : List α) (path : String),
      (pyLower (splitext_ext path) = ".sqlite" ∨ pyLower (splitext_ext path) = ".db") →
      save_results data path (some "json")
        = Except.ok (WriteEffect.sqliteTable path "qr_scan_results" data) := by
  intro α data path h
  rcases h with h | h <;> simp [save_results, resolveFormat, h]

/-- C10 (witness): paths `out.sqlite` and `scan.db` with explicit format
`json` are both written as sqlite. -/
theorem C10_witness :
    save_results ([0] : List Nat) "out.sqlite" (some "json")
      = Except.ok (WriteEffect.sqliteTable "out.sqlite" "qr_scan_results" [0]) ∧
    save_results ([0] : List Nat) "scan.db" (some "json")
      = Except.ok (WriteEffect.sqliteTable "scan.db" "qr_scan_results" [0]) :=
  ⟨C10_extension_overrides_json Nat [0] "out.sqlite" (Or.inl (by decide)),
   C10_extension_overrides_json Nat [0] "scan.db" (Or.inr (by decide))⟩

end QRScan
